import Mathlib

/-!
Verification of `src/ui/transcription_result_dialog.py` (whisper-writer).

The file implements `TranscriptionResultDialog`, a notification popup that
shows a transcription preview, auto-hides after 5000 ms, and becomes
persistent (copying the full text to the clipboard and adding a close
button) on a left mouse click.

We embed the dialog shallowly: Python strings are `List Char` (a Python
`str` is a sequence of code points), the mutable Qt object together with
the system clipboard is a `DialogState` record, and each method of the
class is a state-transforming function.  Event dispatch by the Qt event
loop is a `step` function over an `Event` type, and `Reachable` collects
the states the dialog can actually be in.
-/

set_option autoImplicit false

namespace TranscriptionDialog

/-- Python's `str.strip()` with no argument: remove leading and trailing
whitespace characters (embedded via `Char.isWhitespace`). -/
def pyStrip (s : List Char) : List Char :=
  ((s.dropWhile Char.isWhitespace).reverse.dropWhile Char.isWhitespace).reverse

/-- The three-dot ellipsis appended by the truncation in
`show_transcription_result` (`preview_text[:77] + "..."`). -/
def ellipsis : List Char := "...".toList

/-- The preview computation of `show_transcription_result` (lines 96-99):
`preview_text = text.strip()`; if `len(preview_text) > 80` then
`preview_text = preview_text[:77] + "..."`. -/
def makePreview (text : List Char) : List Char :=
  let p := pyStrip text
  if p.length > 80 then p.take 77 ++ ellipsis else p

/-- Geometry of the primary screen, as returned by
`QApplication.primaryScreen().geometry()`. -/
structure ScreenGeom where
  width : Int
  height : Int
deriving Repr, DecidableEq

/-- The mouse button of a `QMouseEvent` (`event.button()`). -/
inductive MouseButton where
  | left
  | right
  | middle
deriving Repr, DecidableEq

/-- The observable state of a `TranscriptionResultDialog` instance together
with the system clipboard.

Fields mirror the Python attributes: `transcription_text` (line 94),
the text of `self.preview_label` and `self.subtitle_label`,
`is_persistent`, the `auto_hide_timer` (active flag and interval in ms),
window visibility, the `close_button_added` marker attribute (absent is
embedded as `false`), the window size and position, and the clipboard
contents. -/
structure DialogState where
  transcription_text : List Char
  preview_label : List Char
  subtitle_label : List Char
  is_persistent : Bool
  timer_active : Bool
  timer_interval : Nat
  visible : Bool
  close_button_added : Bool
  win_width : Int
  win_height : Int
  pos_x : Int
  pos_y : Int
  clipboard : List Char
deriving Repr, DecidableEq

/-- Initial subtitle text, set in `initResultUI` and reset by
`show_transcription_result`. -/
def initialPromptText : List Char := "Click to copy and keep open".toList

/-- Subtitle text set by `make_persistent`. -/
def copiedSubtitleText : List Char := "✓ Copied to clipboard".toList

/-- The state after `__init__` and `initResultUI`.

Modelled from the spec: `BaseWindow.__init__` is not under `src/`; the
constructor call `super().__init__("Transcription", 320, 120)` fixes the
initial window size 320×120, and the window starts hidden with the timer
not yet started, per the spec's lifecycle description.  The initial
position and clipboard contents are irrelevant to every claim; we pick
zeros / the empty string. -/
def initDialog : DialogState where
  transcription_text := []
  preview_label := []
  subtitle_label := initialPromptText
  is_persistent := false
  timer_active := false
  timer_interval := 0
  visible := false
  close_button_added := false
  win_width := 320
  win_height := 120
  pos_x := 0
  pos_y := 0
  clipboard := []

/-- The coordinate computation of `position_bottom_right` (lines 129-132):
`margin = 20`; `x = screen_width - window_width - margin`;
`y = screen_height - window_height - margin - 60`. -/
def positionCoords (sw sh ww wh : Int) : Int × Int :=
  (sw - ww - 20, sh - wh - 20 - 60)

/-- `position_bottom_right(self)`: move the window to the coordinates
computed from the primary screen geometry and the window's own size. -/
def position_bottom_right (scr : ScreenGeom) (d : DialogState) : DialogState :=
  let p := positionCoords scr.width scr.height d.win_width d.win_height
  { d with pos_x := p.1, pos_y := p.2 }

/-- `show_transcription_result(self, text)` (lines 87-115): store the full
text, set the preview label, reset `is_persistent` and the subtitle,
reposition, show/raise/activate the window, and start the auto-hide timer
with interval 5000 ms. -/
def show_transcription_result (scr : ScreenGeom) (text : List Char)
    (d : DialogState) : DialogState :=
  let d1 := { d with
    transcription_text := text
    preview_label := makePreview text
    is_persistent := false
    subtitle_label := initialPromptText }
  let d2 := position_bottom_right scr d1
  let d3 := { d2 with visible := true }
  { d3 with timer_active := true, timer_interval := 5000 }

/-- `add_close_button(self)` (lines 160-196): append the close-button row
to the content layout, then `setFixedSize(320, 150)` and reposition. -/
def add_close_button (scr : ScreenGeom) (d : DialogState) : DialogState :=
  position_bottom_right scr { d with win_width := 320, win_height := 150 }

/-- `make_persistent(self)` (lines 147-158): set `is_persistent`, stop the
timer, set the subtitle to the copied confirmation, and on the first call
only (guarded by `hasattr(self, 'close_button_added')`) add the close
button and set the marker attribute. -/
def make_persistent (scr : ScreenGeom) (d : DialogState) : DialogState :=
  let d1 := { d with
    is_persistent := true
    timer_active := false
    subtitle_label := copiedSubtitleText }
  if d1.close_button_added then d1
  else { add_close_button scr d1 with close_button_added := true }

/-- `copy_to_clipboard(self)` (lines 198-203): write the stored full
`transcription_text` to the system clipboard. -/
def copy_to_clipboard (d : DialogState) : DialogState :=
  { d with clipboard := d.transcription_text }

/-- `mousePressEvent(self, event)` (lines 136-145): on a left-button press
while not persistent, `make_persistent()` then `copy_to_clipboard()`;
otherwise delegate to `super().mousePressEvent(event)`.

Modelled from the spec: `BaseWindow.mousePressEvent` is not under `src/`;
per the spec it only initiates window dragging ("clicks are treated as
window-drag input ... no state change"), so the delegated branch leaves
every modelled field unchanged. -/
def mousePressEvent (scr : ScreenGeom) (b : MouseButton)
    (d : DialogState) : DialogState :=
  if b = MouseButton.left ∧ d.is_persistent = false then
    copy_to_clipboard (make_persistent scr d)
  else
    d

/-- `closeEvent(self, event)` (lines 212-217): stop the auto-hide timer,
then delegate to the default close behavior.

Modelled from the spec: `BaseWindow.closeEvent` / the framework default is
not under `src/`; per the spec the default close behavior hides and
destroys the window, embedded as `visible := false`. -/
def closeEvent (d : DialogState) : DialogState :=
  { d with timer_active := false, visible := false }

/-- `auto_hide(self)` (lines 205-210): invoked on timer expiry; calls
`self.close()` (which dispatches `closeEvent`) only when not persistent. -/
def auto_hide (d : DialogState) : DialogState :=
  if d.is_persistent then d else closeEvent d

/-- The external events the Qt event loop can deliver to the dialog. -/
inductive Event where
  | showResult (scr : ScreenGeom) (text : List Char)
  | mousePress (scr : ScreenGeom) (b : MouseButton)
  | timerExpire
  | closeClick
  | externalClose
deriving Repr

/-- One step of the event loop.  The timer callback fires only while the
timer is active; the close button can be clicked only once it has been
added; `externalClose` is any other `close()` (e.g. application shutdown),
which also dispatches `closeEvent`. -/
def step (d : DialogState) : Event → DialogState
  | Event.showResult scr t => show_transcription_result scr t d
  | Event.mousePress scr b => mousePressEvent scr b d
  | Event.timerExpire => if d.timer_active then auto_hide d else d
  | Event.closeClick => if d.close_button_added then closeEvent d else d
  | Event.externalClose => closeEvent d

/-- States the dialog can reach from construction by any event sequence. -/
inductive Reachable : DialogState → Prop where
  | init : Reachable initDialog
  | next (d : DialogState) (e : Event) : Reachable d → Reachable (step d e)

/-- A fixed primary-screen geometry used to build concrete example states. -/
def demoScreen : ScreenGeom := ⟨1920, 1080⟩

/-- A short concrete transcription used to build concrete example states. -/
def shortText : List Char := "hi".toList

/-! ### Helper lemmas about the preview computation -/

theorem pyStrip_length_le (s : List Char) : (pyStrip s).length ≤ s.length := by
  unfold pyStrip
  rw [List.length_reverse]
  have h1 := (List.dropWhile_sublist
    (l := (s.dropWhile Char.isWhitespace).reverse) Char.isWhitespace).length_le
  rw [List.length_reverse] at h1
  exact h1.trans (List.dropWhile_sublist (l := s) Char.isWhitespace).length_le

theorem makePreview_of_gt (t : List Char) (h : 80 < (pyStrip t).length) :
    makePreview t = (pyStrip t).take 77 ++ ellipsis := by
  simp only [makePreview]
  rw [if_pos h]

theorem makePreview_of_le (t : List Char) (h : (pyStrip t).length ≤ 80) :
    makePreview t = pyStrip t := by
  simp only [makePreview]
  rw [if_neg (Nat.not_lt.mpr h)]

theorem ellipsis_length : ellipsis.length = 3 := by decide

/-! ### Claims about the preview (C1, C5, C7) -/

/-- C1 (amended): for every input whose whitespace-trimmed form is longer
than 80 characters, the preview built by `show_transcription_result` has
length exactly 80, its last three characters are `"..."`, and its first 77
characters equal the first 77 characters of the trimmed input. -/
theorem C1_preview_of_long_trimmed_input (t : List Char)
    (h : 80 < (pyStrip t).length) :
    (makePreview t).length = 80 ∧
    (makePreview t).drop 77 = ellipsis ∧
    (makePreview t).take 77 = (pyStrip t).take 77 := by
  have hlen : ((pyStrip t).take 77).length = 77 := by
    rw [List.length_take]; omega
  rw [makePreview_of_gt t h]
  refine ⟨?_, List.drop_left' hlen, List.take_left' hlen⟩
  rw [List.length_append, hlen, ellipsis_length]

/-- The input of 100 `'a'` characters from the claim's example. -/
def hundredAs : List Char := List.replicate 100 'a'

/-- C1 witness: the example input of 100 `'a'` characters has trimmed
length 100 > 80 and its preview is the first 77 characters plus `"..."`
(80 characters in total). -/
theorem C1_preview_of_long_trimmed_input_witness :
    80 < (pyStrip hundredAs).length ∧
    ((makePreview hundredAs).length = 80 ∧
     (makePreview hundredAs).drop 77 = ellipsis ∧
     (makePreview hundredAs).take 77 = (pyStrip hundredAs).take 77) :=
  ⟨by decide, C1_preview_of_long_trimmed_input hundredAs (by decide)⟩

/-- An input that is longer than 80 characters but whose trimmed form is
a single character: `'a'` followed by 80 spaces. -/
def c1RawLongInput : List Char := 'a' :: List.replicate 80 ' '

/-- C1 counterexample: the claim quantifies over inputs of raw length
greater than 80, but the code strips whitespace before testing the length:
for `'a'` followed by 80 spaces (raw length 81 > 80) the preview is just
`"a"`, of length 1, not 80. -/
theorem C1_counterexample :
    80 < c1RawLongInput.length ∧ (makePreview c1RawLongInput).length ≠ 80 := by
  decide

/-- C7: for every input of (raw) length at most 80, the preview equals the
whitespace-trimmed input exactly, with no ellipsis appended. -/
theorem C7_short_input_preview (t : List Char) (h : t.length ≤ 80) :
    makePreview t = pyStrip t :=
  makePreview_of_le t ((pyStrip_length_le t).trans h)

/-- C7 witness at the concrete input `"  hi  "`. -/
theorem C7_short_input_preview_witness :
    ("  hi  ".toList).length ≤ 80 ∧
    makePreview "  hi  ".toList = pyStrip "  hi  ".toList :=
  ⟨by decide, C7_short_input_preview "  hi  ".toList (by decide)⟩

/-! ### The reachability invariant -/

/-- Facts that hold in every reachable dialog state: the timer is active
only while the dialog is transient, a hidden (closed) dialog never has an
active timer, the close-button marker forces the enlarged fixed 320×150
size, and the preview label always shows `makePreview` of the stored
text. -/
def Inv (d : DialogState) : Prop :=
  (d.timer_active = true → d.is_persistent = false) ∧
  (d.visible = false → d.timer_active = false) ∧
  (d.close_button_added = true → d.win_width = 320 ∧ d.win_height = 150) ∧
  d.preview_label = makePreview d.transcription_text

theorem inv_init : Inv initDialog :=
  ⟨fun _ => rfl, fun _ => rfl, fun h => Bool.noConfusion h, by decide⟩

theorem inv_step (d : DialogState) (e : Event) (h : Inv d) : Inv (step d e) := by
  obtain ⟨h1, h2, h3, h4⟩ := h
  cases e with
  | showResult scr t =>
      exact ⟨fun _ => rfl, fun hv => Bool.noConfusion hv, h3, rfl⟩
  | mousePress scr b =>
      simp only [step, mousePressEvent]
      split
      · simp only [copy_to_clipboard, make_persistent]
        split
        · exact ⟨fun hv => Bool.noConfusion hv, fun _ => rfl, h3, h4⟩
        · exact ⟨fun hv => Bool.noConfusion hv, fun _ => rfl,
            fun _ => ⟨rfl, rfl⟩, h4⟩
      · exact ⟨h1, h2, h3, h4⟩
  | timerExpire =>
      simp only [step]
      split
      · next ht =>
          have hp := h1 ht
          simp only [auto_hide, hp]
          rw [if_neg (by decide)]
          exact ⟨fun hv => Bool.noConfusion hv, fun _ => rfl, h3, h4⟩
      · exact ⟨h1, h2, h3, h4⟩
  | closeClick =>
      simp only [step]
      split
      · exact ⟨fun hv => Bool.noConfusion hv, fun _ => rfl, h3, h4⟩
      · exact ⟨h1, h2, h3, h4⟩
  | externalClose =>
      exact ⟨fun hv => Bool.noConfusion hv, fun _ => rfl, h3, h4⟩

theorem reachable_inv (d : DialogState) (h : Reachable d) : Inv d := by
  induction h with
  | init => exact inv_init
  | next d e _ ih => exact inv_step d e ih

/-! ### Claims about the click transition (C2, C4) -/

/-- C2: a left-button press received while `is_persistent` is false sets
`is_persistent` to true, stops the auto-hide timer, and writes the exact
full stored text to the clipboard; in particular, after
`show_transcription_result` with argument `txt`, a left press copies the
untruncated `txt` itself, not the preview. -/
theorem C2_left_press_copies_full_text (scr scr2 : ScreenGeom)
    (d d2 : DialogState) (txt : List Char) (h : d.is_persistent = false) :
    (mousePressEvent scr MouseButton.left d).is_persistent = true ∧
    (mousePressEvent scr MouseButton.left d).timer_active = false ∧
    (mousePressEvent scr MouseButton.left d).clipboard =
      d.transcription_text ∧
    (mousePressEvent scr MouseButton.left
      (show_transcription_result scr2 txt d2)).clipboard = txt := by
  have hstep : ∀ d3 : DialogState, d3.is_persistent = false →
      (mousePressEvent scr MouseButton.left d3).is_persistent = true ∧
      (mousePressEvent scr MouseButton.left d3).timer_active = false ∧
      (mousePressEvent scr MouseButton.left d3).clipboard =
        d3.transcription_text := by
    intro d3 h3
    simp only [mousePressEvent]
    rw [if_pos ⟨trivial, h3⟩]
    simp only [copy_to_clipboard, make_persistent]
    split
    · exact ⟨rfl, rfl, rfl⟩
    · exact ⟨rfl, rfl, rfl⟩
  obtain ⟨ha, hb, hc⟩ := hstep d h
  refine ⟨ha, hb, hc, ?_⟩
  exact (hstep (show_transcription_result scr2 txt d2) rfl).2.2

/-- C2 witness: concrete run with screen 1920×1080 and the text
`"hello"`, starting from the freshly constructed dialog. -/
theorem C2_left_press_copies_full_text_witness :
    initDialog.is_persistent = false ∧
    ((mousePressEvent demoScreen MouseButton.left initDialog).is_persistent
        = true ∧
     (mousePressEvent demoScreen MouseButton.left initDialog).timer_active
        = false ∧
     (mousePressEvent demoScreen MouseButton.left initDialog).clipboard =
        initDialog.transcription_text ∧
     (mousePressEvent demoScreen MouseButton.left
       (show_transcription_result demoScreen "hello".toList
         initDialog)).clipboard = "hello".toList) :=
  ⟨rfl, C2_left_press_copies_full_text demoScreen demoScreen initDialog
    initDialog "hello".toList rfl⟩

/-- C4: a left-button press received while `is_persistent` is already true
leaves the whole dialog state (clipboard, close control, persistence flag,
timer, everything) unchanged: the event is only delegated to the base
window's drag handler. -/
theorem C4_press_while_persistent_noop (scr : ScreenGeom)
    (d : DialogState) (h : d.is_persistent = true) :
    mousePressEvent scr MouseButton.left d = d := by
  simp only [mousePressEvent]
  rw [if_neg]
  rintro ⟨-, hfalse⟩
  rw [h] at hfalse
  exact Bool.noConfusion hfalse

/-- C4 witness: a concrete persistent state is left untouched by a further
left press. -/
theorem C4_press_while_persistent_noop_witness :
    ({ initDialog with is_persistent := true } : DialogState).is_persistent
      = true ∧
    mousePressEvent demoScreen MouseButton.left
      { initDialog with is_persistent := true } =
      { initDialog with is_persistent := true } :=
  ⟨rfl, C4_press_while_persistent_noop demoScreen
    { initDialog with is_persistent := true } rfl⟩

/-! ### Claim about showing a result (C3) -/

/-- C3: immediately after `show_transcription_result` returns,
`is_persistent` is false, the subtitle label holds the initial prompt text
again, and the auto-hide timer is armed with a 5000 ms interval. -/
theorem C3_show_resets_state (scr : ScreenGeom) (t : List Char)
    (d : DialogState) :
    (show_transcription_result scr t d).is_persistent = false ∧
    (show_transcription_result scr t d).subtitle_label =
      initialPromptText ∧
    (show_transcription_result scr t d).timer_active = true ∧
    (show_transcription_result scr t d).timer_interval = 5000 :=
  ⟨rfl, rfl, rfl, rfl⟩

/-! ### Claim C5: the preview invariant -/

/-- The concrete input for the C5 counterexample: 70 `'a'` characters
followed by 20 spaces, 90 characters in total. -/
def c5Input : List Char := List.replicate 70 'a' ++ List.replicate 20 ' '

/-- C5 counterexample: the claim asserts that whenever `full_text` exceeds
80 characters the preview is a prefix of `full_text` followed by an
ellipsis; for 70 `'a'`s followed by 20 spaces (length 90 > 80) the code
strips the spaces first, so the preview is the bare 70 `'a'`s and no
decomposition `prefix ++ "..."` exists. -/
theorem C5_counterexample :
    80 < c5Input.length ∧
    ¬ ∃ pre, pre <+: c5Input ∧ makePreview c5Input = pre ++ ellipsis := by
  refine ⟨by decide, ?_⟩
  rintro ⟨pre, -, heq⟩
  have hlen : (makePreview c5Input).length = pre.length + 3 := by
    rw [heq, List.length_append, ellipsis_length]
  have hl70 : (makePreview c5Input).length = 70 := by decide
  have hp : pre.length = 67 := by omega
  have hdrop : (makePreview c5Input).drop 67 = ellipsis := by
    rw [heq]; exact List.drop_left' hp
  have hne : ¬ (makePreview c5Input).drop 67 = ellipsis := by decide
  exact hne hdrop

/-- C5 (amended): in every reachable state, the displayed preview label is
a prefix of the whitespace-trimmed stored text followed by an ellipsis when
the trimmed text exceeds 80 characters, and otherwise equals the trimmed
stored text. -/
theorem C5_preview_invariant (d : DialogState) (h : Reachable d) :
    if 80 < (pyStrip d.transcription_text).length then
      ∃ pre, pre <+: pyStrip d.transcription_text ∧
        d.preview_label = pre ++ ellipsis
    else d.preview_label = pyStrip d.transcription_text := by
  have hp : d.preview_label = makePreview d.transcription_text :=
    (reachable_inv d h).2.2.2
  by_cases hc : 80 < (pyStrip d.transcription_text).length
  · rw [if_pos hc]
    refine ⟨(pyStrip d.transcription_text).take 77,
      List.take_prefix 77 (pyStrip d.transcription_text), ?_⟩
    rw [hp, makePreview_of_gt d.transcription_text hc]
  · rw [if_neg hc]
    rw [hp, makePreview_of_le d.transcription_text (Nat.not_lt.mp hc)]

/-- C5 witness: the invariant instantiated at the reachable state obtained
by showing the 100-`'a'` transcription on a 1920×1080 screen. -/
theorem C5_preview_invariant_witness :
    if 80 < (pyStrip (step initDialog
        (Event.showResult demoScreen hundredAs)).transcription_text).length
    then
      ∃ pre, pre <+: pyStrip (step initDialog
          (Event.showResult demoScreen hundredAs)).transcription_text ∧
        (step initDialog
          (Event.showResult demoScreen hundredAs)).preview_label =
          pre ++ ellipsis
    else
      (step initDialog
        (Event.showResult demoScreen hundredAs)).preview_label =
        pyStrip (step initDialog
          (Event.showResult demoScreen hundredAs)).transcription_text :=
  C5_preview_invariant (step initDialog
    (Event.showResult demoScreen hundredAs))
    (Reachable.next initDialog (Event.showResult demoScreen hundredAs)
      Reachable.init)

/-! ### Claims about timing and closing (C6, C9) -/

/-- C6: when the auto-hide timer expires in a reachable state (so the
timer is still active), the dialog is still transient, and the resulting
`auto_hide` call closes the window; and whenever `auto_hide` runs with
`is_persistent` true it changes nothing. -/
theorem C6_timer_expiry_closes_transient (d : DialogState)
    (h : Reachable d) (ht : d.timer_active = true) :
    d.is_persistent = false ∧
    (step d Event.timerExpire).visible = false ∧
    auto_hide { d with is_persistent := true } =
      { d with is_persistent := true } := by
  have hpers : d.is_persistent = false := (reachable_inv d h).1 ht
  refine ⟨hpers, ?_, ?_⟩
  · simp only [step]
    rw [if_pos ht]
    simp only [auto_hide, hpers]
    rw [if_neg (by decide)]
    rfl
  · simp only [auto_hide]
    rw [if_pos trivial]

/-- C6 witness: the state reached by showing `"hi"` has an armed timer;
expiry closes it and stays non-persistent. -/
theorem C6_timer_expiry_closes_transient_witness :
    (step initDialog
      (Event.showResult demoScreen shortText)).timer_active = true ∧
    ((step initDialog
        (Event.showResult demoScreen shortText)).is_persistent = false ∧
     (step (step initDialog (Event.showResult demoScreen shortText))
        Event.timerExpire).visible = false ∧
     auto_hide { step initDialog (Event.showResult demoScreen shortText)
        with is_persistent := true } =
       { step initDialog (Event.showResult demoScreen shortText)
        with is_persistent := true }) :=
  ⟨rfl, C6_timer_expiry_closes_transient
    (step initDialog (Event.showResult demoScreen shortText))
    (Reachable.next initDialog (Event.showResult demoScreen shortText)
      Reachable.init) rfl⟩

/-- C9: in every reachable state in which the window is closed (not
visible), the auto-hide timer is inactive, so its callback can never fire
(a timer-expiry step is the identity); and `closeEvent` always stops the
timer before the default close behavior. -/
theorem C9_closed_implies_timer_stopped (d : DialogState)
    (h : Reachable d) (hc : d.visible = false) :
    d.timer_active = false ∧
    step d Event.timerExpire = d ∧
    (closeEvent d).timer_active = false := by
  have ht : d.timer_active = false := (reachable_inv d h).2.1 hc
  refine ⟨ht, ?_, rfl⟩
  simp only [step, ht]
  rw [if_neg (by decide)]

/-- C9 witness: the state closed by timer expiry after showing `"hi"` is
not visible, its timer is stopped, and a stray expiry changes nothing. -/
theorem C9_closed_implies_timer_stopped_witness :
    (step (step initDialog (Event.showResult demoScreen shortText))
      Event.timerExpire).visible = false ∧
    ((step (step initDialog (Event.showResult demoScreen shortText))
        Event.timerExpire).timer_active = false ∧
     step (step (step initDialog (Event.showResult demoScreen shortText))
        Event.timerExpire) Event.timerExpire =
       step (step initDialog (Event.showResult demoScreen shortText))
        Event.timerExpire ∧
     (closeEvent (step (step initDialog
        (Event.showResult demoScreen shortText))
        Event.timerExpire)).timer_active = false) :=
  ⟨rfl, C9_closed_implies_timer_stopped
    (step (step initDialog (Event.showResult demoScreen shortText))
      Event.timerExpire)
    (Reachable.next (step initDialog
        (Event.showResult demoScreen shortText)) Event.timerExpire
      (Reachable.next initDialog (Event.showResult demoScreen shortText)
        Reachable.init)) rfl⟩

/-! ### Claim about positioning (C8) -/

/-- C8: `position_bottom_right` puts the window's top-left corner at
`x = screen_width - window_width - 20` and
`y = screen_height - window_height - 80`, and it is idempotent when the
screen and window sizes are unchanged. -/
theorem C8_position_bottom_right_spec (scr : ScreenGeom)
    (d : DialogState) :
    (position_bottom_right scr d).pos_x = scr.width - d.win_width - 20 ∧
    (position_bottom_right scr d).pos_y = scr.height - d.win_height - 80 ∧
    position_bottom_right scr (position_bottom_right scr d) =
      position_bottom_right scr d := by
  refine ⟨rfl, ?_, rfl⟩
  show scr.height - d.win_height - 20 - 60 = scr.height - d.win_height - 80
  ring

/-! ### Claim C10: the close button is permanent -/

theorem make_persistent_close_button (scr : ScreenGeom)
    (d : DialogState) :
    (make_persistent scr d).close_button_added = true := by
  simp only [make_persistent]
  split
  · next hc => exact hc
  · rfl

theorem close_button_added_monotone (d : DialogState) (e : Event)
    (hb : d.close_button_added = true) :
    (step d e).close_button_added = true := by
  cases e with
  | showResult scr t => exact hb
  | mousePress scr b =>
      simp only [step, mousePressEvent]
      split
      · exact make_persistent_close_button scr d
      · exact hb
  | timerExpire =>
      simp only [step]
      split
      · simp only [auto_hide]
        split
        · exact hb
        · exact hb
      · exact hb
  | closeClick =>
      simp only [step]
      split
      · exact hb
      · exact hb
  | externalClose => exact hb

/-- C10: once the close-button marker is set in a reachable state, any
further event leaves it set and leaves the window at the enlarged fixed
320×150 size; in particular a later `show_transcription_result` resets the
text, the persistence flag and the timer, but keeps the close control and
the 320×150 size. -/
theorem C10_close_button_permanent (d : DialogState) (e : Event)
    (scr : ScreenGeom) (t : List Char) (h : Reachable d)
    (hb : d.close_button_added = true) :
    (step d e).close_button_added = true ∧
    (step d e).win_width = 320 ∧
    (step d e).win_height = 150 ∧
    (show_transcription_result scr t d).transcription_text = t ∧
    (show_transcription_result scr t d).is_persistent = false ∧
    (show_transcription_result scr t d).timer_active = true ∧
    (show_transcription_result scr t d).close_button_added = true ∧
    (show_transcription_result scr t d).win_width = 320 ∧
    (show_transcription_result scr t d).win_height = 150 := by
  have hmono := close_button_added_monotone d e hb
  have hinv := inv_step d e (reachable_inv d h)
  have hsize := (reachable_inv d h).2.2.1 hb
  exact ⟨hmono, (hinv.2.2.1 hmono).1, (hinv.2.2.1 hmono).2,
    rfl, rfl, rfl, hb, hsize.1, hsize.2⟩

/-- C10 witness: the persistent state reached by showing `"hi"` and
left-clicking has the marker set; a further show keeps the close control
and the 320×150 size. -/
theorem C10_close_button_permanent_witness :
    (step (step initDialog (Event.showResult demoScreen shortText))
      (Event.mousePress demoScreen MouseButton.left)).close_button_added
      = true ∧
    ((step (step (step initDialog
        (Event.showResult demoScreen shortText))
        (Event.mousePress demoScreen MouseButton.left))
        (Event.showResult demoScreen shortText)).close_button_added
        = true ∧
     (step (step (step initDialog
        (Event.showResult demoScreen shortText))
        (Event.mousePress demoScreen MouseButton.left))
        (Event.showResult demoScreen shortText)).win_width = 320 ∧
     (step (step (step initDialog
        (Event.showResult demoScreen shortText))
        (Event.mousePress demoScreen MouseButton.left))
        (Event.showResult demoScreen shortText)).win_height = 150 ∧
     (show_transcription_result demoScreen shortText
       (step (step initDialog (Event.showResult demoScreen shortText))
         (Event.mousePress demoScreen
           MouseButton.left))).transcription_text = shortText ∧
     (show_transcription_result demoScreen shortText
       (step (step initDialog (Event.showResult demoScreen shortText))
         (Event.mousePress demoScreen
           MouseButton.left))).is_persistent = false ∧
     (show_transcription_result demoScreen shortText
       (step (step initDialog (Event.showResult demoScreen shortText))
         (Event.mousePress demoScreen
           MouseButton.left))).timer_active = true ∧
     (show_transcription_result demoScreen shortText
       (step (step initDialog (Event.showResult demoScreen shortText))
         (Event.mousePress demoScreen
           MouseButton.left))).close_button_added = true ∧
     (show_transcription_result demoScreen shortText
       (step (step initDialog (Event.showResult demoScreen shortText))
         (Event.mousePress demoScreen
           MouseButton.left))).win_width = 320 ∧
     (show_transcription_result demoScreen shortText
       (step (step initDialog (Event.showResult demoScreen shortText))
         (Event.mousePress demoScreen
           MouseButton.left))).win_height = 150) :=
  ⟨by decide, C10_close_button_permanent
    (step (step initDialog (Event.showResult demoScreen shortText))
      (Event.mousePress demoScreen MouseButton.left))
    (Event.showResult demoScreen shortText) demoScreen shortText
    (Reachable.next (step initDialog
        (Event.showResult demoScreen shortText))
      (Event.mousePress demoScreen MouseButton.left)
      (Reachable.next initDialog (Event.showResult demoScreen shortText)
        Reachable.init))
    (by decide)⟩

end TranscriptionDialog
